import Mathlib

/-!
# Verification of `blogs.py` (taplowscrape)

A shallow embedding of the scraper in `src/blogs.py`. The external
collaborators (HTTP client, HTML parser, filesystem) are modelled as
oracles / elided effects, exactly as the spec declares them out of scope:

* an HTTP fetch is a function `String → Except Unit Response`; an
  `Except.error` models a `requests` exception, an `Except.ok` carries the
  response status code and decoded text;
* `BeautifulSoup` parsing is a function from the response text to a record
  of the results of the specific CSS/`find` queries the script performs;
* writing image bytes to disk is elided — only the returned local path is
  observable to the rest of the program, and no verified property concerns
  the written bytes.

Library functions from the Python standard library that the script's
observable behaviour depends on (`hashlib.md5`, `urllib.parse.urlparse`,
`urllib.parse.urljoin`, `os.path.splitext`, `str.strip`) are translated
into executable Lean functions below.
-/

/-- Python truthiness of an optional string: `None` and `""` are falsy. -/
def truthyStr : Option String → Bool
  | none => false
  | some s => s ≠ ""

/-- Models Python `str.strip()` (leading/trailing whitespace removed). -/
def pyStrip (s : String) : String :=
  String.mk (((s.toList.dropWhile Char.isWhitespace).reverse.dropWhile
    Char.isWhitespace).reverse)

/-- Whether one character list leads (is an initial segment of) another. -/
def listLeads : List Char → List Char → Bool
  | [], _ => true
  | _ :: _, [] => false
  | a :: as, b :: bs => a == b && listLeads as bs

/-- Models Python `s.startswith(pre)` (kept kernel-reducible). -/
def pyStartsWith (s pre : String) : Bool := listLeads pre.toList s.toList

/-! ## `hashlib.md5`

A direct translation of the MD5 algorithm (RFC 1321) on byte lists, with
32-bit words represented as `Nat` reduced modulo `2^32`.  `md5hex` is the
analogue of `hashlib.md5(url.encode()).hexdigest()`. -/

/-- UTF-8 encoding of one character, as Python `str.encode()` produces. -/
def utf8Bytes (c : Char) : List Nat :=
  let n := c.toNat
  if n < 0x80 then [n]
  else if n < 0x800 then [0xc0 + n / 64, 0x80 + n % 64]
  else if n < 0x10000 then [0xe0 + n / 4096, 0x80 + n / 64 % 64, 0x80 + n % 64]
  else [0xf0 + n / 0x40000, 0x80 + n / 4096 % 64, 0x80 + n / 64 % 64, 0x80 + n % 64]

/-- UTF-8 bytes of a string, as in Python `s.encode()`. -/
def strBytes (s : String) : List Nat := (s.toList.map utf8Bytes).flatten

/-- The 64 MD5 round constants `K[i] = floor(2^32 * abs(sin(i+1)))`. -/
def md5K : List Nat :=
  [0xd76aa478, 0xe8c7b756, 0x242070db, 0xc1bdceee,
   0xf57c0faf, 0x4787c62a, 0xa8304613, 0xfd469501,
   0x698098d8, 0x8b44f7af, 0xffff5bb1, 0x895cd7be,
   0x6b901122, 0xfd987193, 0xa679438e, 0x49b40821,
   0xf61e2562, 0xc040b340, 0x265e5a51, 0xe9b6c7aa,
   0xd62f105d, 0x02441453, 0xd8a1e681, 0xe7d3fbc8,
   0x21e1cde6, 0xc33707d6, 0xf4d50d87, 0x455a14ed,
   0xa9e3e905, 0xfcefa3f8, 0x676f02d9, 0x8d2a4c8a,
   0xfffa3942, 0x8771f681, 0x6d9d6122, 0xfde5380c,
   0xa4beea44, 0x4bdecfa9, 0xf6bb4b60, 0xbebfbc70,
   0x289b7ec6, 0xeaa127fa, 0xd4ef3085, 0x04881d05,
   0xd9d4d039, 0xe6db99e5, 0x1fa27cf8, 0xc4ac5665,
   0xf4292244, 0x432aff97, 0xab9423a7, 0xfc93a039,
   0x655b59c3, 0x8f0ccc92, 0xffeff47d, 0x85845dd1,
   0x6fa87e4f, 0xfe2ce6e0, 0xa3014314, 0x4e0811a1,
   0xf7537e82, 0xbd3af235, 0x2ad7d2bb, 0xeb86d391]

/-- The 64 MD5 per-round left-rotation amounts. -/
def md5S : List Nat :=
  [7, 12, 17, 22, 7, 12, 17, 22, 7, 12, 17, 22, 7, 12, 17, 22,
   5, 9, 14, 20, 5, 9, 14, 20, 5, 9, 14, 20, 5, 9, 14, 20,
   4, 11, 16, 23, 4, 11, 16, 23, 4, 11, 16, 23, 4, 11, 16, 23,
   6, 10, 15, 21, 6, 10, 15, 21, 6, 10, 15, 21, 6, 10, 15, 21]

/-- 32-bit left rotation. -/
def rotl32 (x s : Nat) : Nat :=
  Nat.lor ((x % 2 ^ 32) * 2 ^ s % 2 ^ 32) ((x % 2 ^ 32) / 2 ^ (32 - s))

/-- The MD5 round mixing function (F, G, H, I depending on the round). -/
def md5F (i b c d : Nat) : Nat :=
  if i < 16 then Nat.lor (Nat.land b c) (Nat.land (Nat.xor b 0xffffffff) d)
  else if i < 32 then Nat.lor (Nat.land d b) (Nat.land (Nat.xor d 0xffffffff) c)
  else if i < 48 then Nat.xor (Nat.xor b c) d
  else Nat.xor c (Nat.lor b (Nat.xor d 0xffffffff))

/-- The message-word index used in round `i`. -/
def md5G (i : Nat) : Nat :=
  if i < 16 then i
  else if i < 32 then (5 * i + 1) % 16
  else if i < 48 then (3 * i + 5) % 16
  else (7 * i) % 16

/-- One MD5 round on the state `(a, b, c, d)` with message words `M`. -/
def md5Step (M : List Nat) (st : Nat × Nat × Nat × Nat) (i : Nat) :
    Nat × Nat × Nat × Nat :=
  let (a, b, c, d) := st
  let f := (md5F i b c d + a + md5K.getD i 0 + M.getD (md5G i) 0) % 2 ^ 32
  (d, (b + rotl32 f (md5S.getD i 0)) % 2 ^ 32, b, c)

/-- MD5 padding: append `0x80`, zero-fill to 56 mod 64 bytes, then the
original bit length as 8 little-endian bytes. -/
def md5pad (m : List Nat) : List Nat :=
  let L := m.length
  let zeros := (120 - (L + 1) % 64) % 64
  m ++ [0x80] ++ List.replicate zeros 0 ++
    (List.range 8).map (fun i => 8 * L % 2 ^ 64 / 2 ^ (8 * i) % 256)

/-- Split a byte list into chunks of 64; the first argument is fuel
(instantiated with the list length) keeping the recursion structural. -/
def chunks64Aux : Nat → List Nat → List (List Nat)
  | 0, _ => []
  | _, [] => []
  | fuel + 1, l@(_ :: _) => l.take 64 :: chunks64Aux fuel (l.drop 64)

/-- Split a byte list into 64-byte chunks. -/
def chunks64 (l : List Nat) : List (List Nat) := chunks64Aux l.length l

/-- Group bytes into 32-bit little-endian words (fuel-driven recursion). -/
def toWordsAux : Nat → List Nat → List Nat
  | 0, _ => []
  | _, [] => []
  | fuel + 1, b0 :: rest =>
    (b0 + 256 * rest.getD 0 0 + 65536 * rest.getD 1 0 + 16777216 * rest.getD 2 0)
      :: toWordsAux fuel (rest.drop 3)

/-- Group bytes into 32-bit little-endian words. -/
def toWords (l : List Nat) : List Nat := toWordsAux l.length l

/-- Run the 64 MD5 rounds over every 64-byte block. -/
def md5core (blocks : List (List Nat)) : Nat × Nat × Nat × Nat :=
  blocks.foldl
    (fun st block =>
      let M := toWords block
      let (a, b, c, d) := st
      let (a', b', c', d') := (List.range 64).foldl (md5Step M) (a, b, c, d)
      ((a + a') % 2 ^ 32, (b + b') % 2 ^ 32, (c + c') % 2 ^ 32, (d + d') % 2 ^ 32))
    (0x67452301, 0xefcdab89, 0x98badcfe, 0x10325476)

/-- A 32-bit word as 4 little-endian bytes. -/
def wordLE (x : Nat) : List Nat := [x % 256, x / 256 % 256, x / 65536 % 256, x / 16777216 % 256]

/-- The 16-byte MD5 digest of a byte list. -/
def md5 (m : List Nat) : List Nat :=
  let (a, b, c, d) := md5core (chunks64 (md5pad m))
  wordLE a ++ wordLE b ++ wordLE c ++ wordLE d

/-- One lowercase hex digit. -/
def hexDigit (n : Nat) : Char := "0123456789abcdef".toList.getD (n % 16) '0'

/-- Lowercase hex rendering of a byte list, two digits per byte. -/
def hexOfBytes : List Nat → List Char
  | [] => []
  | b :: t => hexDigit (b / 16) :: hexDigit b :: hexOfBytes t

/-- Models `hashlib.md5(s.encode()).hexdigest()`. -/
def md5hex (s : String) : String := String.mk (hexOfBytes (md5 (strBytes s)))

/-! ## `urllib.parse` and `os.path` fragments

Only the behaviour the script observes is modelled: extracting the path
component of a URL (`urlparse(...).path`), taking the extension of a path
(`os.path.splitext(...)[-1]`), and joining URLs (`urljoin`). -/

/-- Characters allowed in a URL scheme after the leading letter. -/
def isSchemeChar (c : Char) : Bool := c.isAlphanum || c == '+' || c == '-' || c == '.'

/-- Whether the string starts with a `scheme:` part, as `urllib.parse`
recognises one (a letter followed by scheme characters, then a colon). -/
def hasScheme (cs : List Char) : Bool :=
  let pre := cs.takeWhile (fun c => c != ':')
  decide (pre.length < cs.length) && !pre.isEmpty &&
    (cs.headD ' ').isAlpha && pre.all isSchemeChar

/-- Drop a leading `scheme:` when present. -/
def dropScheme (cs : List Char) : List Char :=
  if hasScheme cs then cs.drop ((cs.takeWhile (fun c => c != ':')).length + 1) else cs

/-- The `scheme` of a URL, `""` when absent. -/
def schemeOf (u : String) : String :=
  if hasScheme u.toList then String.mk (u.toList.takeWhile (fun c => c != ':')) else ""

/-- Drop a leading `//netloc` when present. -/
def dropNetloc (cs : List Char) : List Char :=
  match cs with
  | '/' :: '/' :: rest => rest.dropWhile (fun c => !(c == '/' || c == '?' || c == '#'))
  | _ => cs

/-- The `netloc` of a URL (the authority after `scheme://`), `""` when absent. -/
def netlocOf (u : String) : String :=
  match dropScheme u.toList with
  | '/' :: '/' :: rest => String.mk (rest.takeWhile (fun c => !(c == '/' || c == '?' || c == '#')))
  | _ => ""

/-- Models `urllib.parse.urlparse(u).path`: strip the fragment, scheme and
netloc, then keep everything before the query. -/
def urlparsePath (u : String) : String :=
  let cs := u.toList.takeWhile (fun c => c != '#')
  String.mk ((dropNetloc (dropScheme cs)).takeWhile (fun c => c != '?'))

/-- Models `os.path.splitext(p)[-1]`: the suffix starting at the last dot of
the final path component, where leading dots of the component never start
an extension (`.bashrc` has none). -/
def splitextExt (p : String) : String :=
  let base := (p.toList.reverse.takeWhile (fun c => c != '/')).reverse
  let stem := base.dropWhile (fun c => c == '.')
  if stem.contains '.' then
    String.mk ('.' :: (stem.reverse.takeWhile (fun c => c != '.')).reverse)
  else ""

/-- Models `urllib.parse.urljoin(base, url)` on the URL shapes this program
produces: an absolute `url` (with scheme) wins, `//host/...` adopts the
base scheme, `/path` is resolved against the base origin, and a relative
path is appended to the base URL's directory.  Dot-segment normalisation
is not modelled; no verified property exercises it. -/
def urljoin (base url : String) : String :=
  if url = "" then base
  else if hasScheme url.toList then url
  else if pyStartsWith url "//" then schemeOf base ++ ":" ++ url
  else if pyStartsWith url "/" then schemeOf base ++ "://" ++ netlocOf base ++ url
  else
    let cs := base.toList.takeWhile (fun c => !(c == '?' || c == '#'))
    let dir := (cs.reverse.dropWhile (fun c => c != '/')).reverse
    String.mk dir ++ url

/-! ## Data model of the parsed HTML

`BeautifulSoup` is an external collaborator; a parsed page is modelled as
the record of the results of exactly the queries `blogs.py` performs on
it.  An element that carries text is a `TextTag`; an `<img>` element is an
`ImgTag` carrying its attribute list (subscripting a missing attribute
raises `KeyError` in bs4, hence `getAttr` is partial). -/

/-- An element whose `.text` / `.get_text()` the script reads. -/
structure TextTag where
  text : String
  deriving Repr, DecidableEq

/-- An `<img>` element with its attribute map. -/
structure ImgTag where
  attrs : List (String × String)
  deriving Repr, DecidableEq

/-- bs4 `tag[key]` via `tag.attrs`: `none` models a `KeyError`. -/
def ImgTag.getAttr (t : ImgTag) (k : String) : Option String :=
  (t.attrs.find? (fun p => p.1 == k)).map (fun p => p.2)

/-- The anchor `card.select_one(".article_image a[href]")`: the selector
guarantees `href`; `img` is `a_tag.find("img")`. -/
structure AnchorTag where
  href : String
  img : Option ImgTag
  deriving Repr, DecidableEq

/-- One listing card (`.article.in_list.normal.box.col-md-4` element);
`aTag` is the result of `card.select_one(".article_image a[href]")`. -/
structure CardTag where
  aTag : Option AnchorTag
  deriving Repr, DecidableEq

/-- A parsed listing page: the result of
`soup.select('.article.in_list.normal.box.col-md-4')`. -/
structure ListingSoup where
  cards : List CardTag
  deriving Repr, DecidableEq

/-- The `div.article_image.left_image` section of an article page:
`firstImg` is `image_section.find("img")`, `rating` is
`image_section.find(class_="rating")`, `readcount` is
`image_section.find(class_="readcount")`. -/
structure ImageSection where
  firstImg : Option ImgTag
  rating : Option TextTag
  readcount : Option TextTag
  deriving Repr, DecidableEq

/-- The `div.article.details` content container: `text` is
`get_text(separator="\n")` before `.strip()`, `imgs` is `find_all("img")`
in document order. -/
structure ContentTag where
  text : String
  imgs : List ImgTag
  deriving Repr, DecidableEq

/-- A parsed article page: the results of the queries `scrape_blog`
performs (`soup.find("h1")`, `soup.select_one("div.author")`,
`soup.select_one("div.date")`, `soup.select_one("div.article_image.left_image")`,
`soup.select_one("div.article.details")`). -/
structure ArticleSoup where
  h1 : Option TextTag
  author : Option TextTag
  date : Option TextTag
  imageSection : Option ImageSection
  content : Option ContentTag
  deriving Repr, DecidableEq

/-- An HTTP response: status code and decoded text.  `requests.get` either
raises (modelled `Except.error ()`) or returns one of these; the body
bytes written by the image cache are elided (nothing observable in the
verified properties depends on them). -/
structure Response where
  status : Nat
  text : String
  deriving Repr, DecidableEq

/-- An HTTP fetch oracle, standing for `requests.get(url, headers, timeout)`. -/
abbrev Fetch := String → Except Unit Response

/-! ## Constants (`blogs.py` lines 12-18) -/

/-- `BASE_URL = "https://www.taplowgroup.com"`. -/
def BASE_URL : String := "https://www.taplowgroup.com"

/-- `BLOG_LIST_URL.format(page)`. -/
def listingUrl (page : Nat) : String :=
  BASE_URL ++ "/insights/blogs/pgrid/5285/pageid/" ++ toString page

/-- `IMAGE_FOLDER = "images"`. -/
def IMAGE_FOLDER : String := "images"

/-! ## `download_image` (`blogs.py` lines 21-45) -/

/-- `os.path.join(folder, filename)` followed by `.replace("\\", "/")`;
on the posix separator convention this is plain `/`-joining. -/
def pathJoin (folder filename : String) : String := folder ++ "/" ++ filename

/-- Models `download_image(img_url, folder)`.  `none` for the argument is
Python `None`; the `if not img_url` guard also rejects `""`.  A relative
URL is resolved against `BASE_URL`.  `response.raise_for_status()` raises
exactly for status codes in `[400, 600)`; any exception inside the `try`
yields `None`.  On success the file is written (elided) and the local
path `folder/md5(url).hexdigest() + ext` is returned, where `ext` is the
extension of the resolved URL's path component, defaulting to `.jpg`. -/
def download_image (fetch : Fetch) (img_url : Option String) (folder : String) :
    Option String :=
  match img_url with
  | none => none
  | some u =>
    if u = "" then none
    else
      let u' := if pyStartsWith u "http" then u else urljoin BASE_URL u
      match fetch u' with
      | .error _ => none
      | .ok res =>
        if 400 ≤ res.status ∧ res.status < 600 then none
        else
          let ext0 := splitextExt (urlparsePath u')
          let ext := if ext0 = "" then ".jpg" else ext0
          some (pathJoin folder (md5hex u' ++ ext))

/-! ## `get_all_blog_links` (`blogs.py` lines 48-83) -/

/-- A discovered link: `{"url": ..., "card_image_url": ...}`. -/
structure LinkEntry where
  url : String
  card_image_url : Option String
  deriving Repr, DecidableEq

/-- The outcome of running a Python function that may loop forever or
raise an uncaught exception. -/
inductive RunResult (α : Type) where
  | diverges
  | raises (msg : String)
  | returns (a : α)
  deriving Repr, DecidableEq

/-- The per-card body of the listing loop (`blogs.py` lines 68-78): when
the anchor is present an entry is appended; `img_tag["src"]` is an
unguarded subscript that raises `KeyError` when the nested image exists
but has no `src` attribute. -/
def extractCard (card : CardTag) : Except String (Option LinkEntry) :=
  match card.aTag with
  | none => .ok none
  | some a =>
    match a.img with
    | none => .ok (some ⟨urljoin BASE_URL a.href, none⟩)
    | some img =>
      match img.getAttr "src" with
      | none => .error "KeyError: src"
      | some s => .ok (some ⟨urljoin BASE_URL a.href, some s⟩)

/-- The entries contributed by one page's card list, in card order;
an uncaught `KeyError` from any card aborts the whole enumeration. -/
def cardsEntries : List CardTag → Except String (List LinkEntry)
  | [] => .ok []
  | c :: rest => do
    let e ← extractCard c
    let es ← cardsEntries rest
    return (match e with | none => es | some x => x :: es)

/-- The `while True` loop of `get_all_blog_links`, with explicit fuel (the
Python loop is unbounded; `diverges` reports fuel exhaustion, never a
behaviour of the code).  The second component of the result counts the
listing-page fetches performed.  A fetch exception breaks the loop
(returning what was collected); a page with zero cards breaks the loop;
otherwise the page's entries are appended and the page index advances. -/
def blogLinksLoop (fetch : Fetch) (parse : String → ListingSoup) :
    Nat → Nat → Nat → List LinkEntry → RunResult (List LinkEntry × Nat)
  | 0, _, _, _ => .diverges
  | fuel + 1, page, fetches, acc =>
    match fetch (listingUrl page) with
    | .error _ => .returns (acc, fetches + 1)
    | .ok res =>
      let cards := (parse res.text).cards
      if cards.isEmpty then .returns (acc, fetches + 1)
      else
        match cardsEntries cards with
        | .error m => .raises m
        | .ok es => blogLinksLoop fetch parse fuel (page + 1) (fetches + 1) (acc ++ es)

/-- Models `get_all_blog_links()`: start at page 1 with no links collected.
The pacing `time.sleep(1)` and progress prints have no observable effect
in the model. -/
def get_all_blog_links (fetch : Fetch) (parse : String → ListingSoup)
    (fuel : Nat) : RunResult (List LinkEntry × Nat) :=
  blogLinksLoop fetch parse fuel 1 0 []

/-! ## `scrape_blog` (`blogs.py` lines 86-151) -/

/-- The dictionary `scrape_blog` returns (lines 140-151). -/
structure BlogRecord where
  url : String
  title : String
  author : String
  date : String
  score : Option String
  views : Option String
  content : String
  card_image : Option String
  featured_image : Option String
  all_images : List (Option String)
  deriving Repr, DecidableEq

/-- The body of `scrape_blog` after a successful fetch (`blogs.py` lines
94-151): every field is extracted best-effort from the parsed page. -/
def buildRecord (fetch : Fetch) (soup : ArticleSoup)
    (blog_url : String) (card_image_url : Option String) : BlogRecord :=
    let title := match soup.h1 with
      | some t => pyStrip t.text
      | none => "No title"
    let author := match soup.author with
      | some t => pyStrip t.text
      | none => "No author"
    let date := match soup.date with
      | some t => pyStrip t.text
      | none => "No date"
    let image_section := soup.imageSection
    let featured_image_tag := match image_section with
      | some sec => sec.firstImg
      | none => none
    let featured_image_url : Option String := match featured_image_tag with
      | some t =>
        match t.getAttr "src" with
        | some s => some (urljoin blog_url s)
        | none => none
      | none => none
    let featured_image := if truthyStr featured_image_url then
        download_image fetch featured_image_url IMAGE_FOLDER
      else none
    let score : Option String := match image_section with
      | some sec => some (match sec.rating with
        | some t => pyStrip t.text
        | none => "No score")
      | none => none
    let views : Option String := match image_section with
      | some sec => some (match sec.readcount with
        | some t => pyStrip t.text
        | none => "No view count")
      | none => none
    let content_container := soup.content
    let content := match content_container with
      | some c => pyStrip c.text
      | none => "No content"
    let all_image_tags := match content_container with
      | some c => c.imgs
      | none => []
    let all_image_urls := all_image_tags.filterMap
      (fun t => (t.getAttr "src").map (fun s => urljoin blog_url s))
    let all_images := all_image_urls.map
      (fun u => download_image fetch (some u) IMAGE_FOLDER)
    let card_image := if truthyStr card_image_url then
        download_image fetch card_image_url IMAGE_FOLDER
      else none
    { url := blog_url, title, author, date, score, views, content,
      card_image, featured_image, all_images }

/-- Models `scrape_blog(blog_url, card_image_url)`.  A fetch exception
(`requests.get` raising) returns `None` — the only way the record is
dropped; otherwise the record is assembled by `buildRecord`. -/
def scrape_blog (fetch : Fetch) (parse : String → ArticleSoup)
    (blog_url : String) (card_image_url : Option String) : Option BlogRecord :=
  match fetch blog_url with
  | .error _ => none
  | .ok res => some (buildRecord fetch (parse res.text) blog_url card_image_url)

/-! ## The aggregation loop of `main` (`blogs.py` lines 158-162) -/

/-- Models the loop of `main`: scrape each discovered link and keep the
truthy (non-`None`) results in order. -/
def mainRecords (fetch : Fetch) (parse : String → ArticleSoup) :
    List LinkEntry → List BlogRecord
  | [] => []
  | l :: rest =>
    match scrape_blog fetch parse l.url l.card_image_url with
    | some d => d :: mainRecords fetch parse rest
    | none => mainRecords fetch parse rest


/-! ## General lemmas about the embedding -/

/-- The entries of pages `start, start+1, ..., start+n-1`, concatenated in
page order. -/
def pagesConcat (es : Nat → List LinkEntry) : Nat → Nat → List LinkEntry
  | _, 0 => []
  | start, n + 1 => es start ++ pagesConcat es (start + 1) n

/-- Lowercase hexadecimal digits. -/
def isLowerHexDigit (c : Char) : Bool := "0123456789abcdef".toList.contains c

theorem hexDigit_lower (n : Nat) : isLowerHexDigit (hexDigit n) = true := by
  have h : n % 16 < 16 := Nat.mod_lt _ (by norm_num)
  revert h
  rw [hexDigit]
  generalize n % 16 = k
  intro h
  interval_cases k <;> decide

theorem hexOfBytes_length (l : List Nat) : (hexOfBytes l).length = 2 * l.length := by
  induction l with
  | nil => rfl
  | cons b t ih => simp [hexOfBytes, ih]; omega

theorem hexOfBytes_lower (l : List Nat) : ∀ c ∈ hexOfBytes l, isLowerHexDigit c = true := by
  induction l with
  | nil => intro c hc; simp [hexOfBytes] at hc
  | cons b t ih =>
    intro c hc
    simp only [hexOfBytes, List.mem_cons] at hc
    rcases hc with h | h | h
    · subst h; exact hexDigit_lower _
    · subst h; exact hexDigit_lower _
    · exact ih c h

theorem md5_length (m : List Nat) : (md5 m).length = 16 := by
  unfold md5
  rcases hstate : md5core (chunks64 (md5pad m)) with ⟨a, b, c, d⟩
  simp [wordLE]

theorem md5hex_length (s : String) : (md5hex s).length = 32 := by
  show (hexOfBytes (md5 (strBytes s))).length = 32
  rw [hexOfBytes_length, md5_length]

theorem md5hex_lower (s : String) :
    ∀ c ∈ (md5hex s).toList, isLowerHexDigit c = true := by
  show ∀ c ∈ hexOfBytes (md5 (strBytes s)), isLowerHexDigit c = true
  exact hexOfBytes_lower _

theorem pyStartsWith_ne_empty {u pre : String} (h : pyStartsWith u pre = true)
    (hpre : pre ≠ "") : u ≠ "" := by
  intro he
  subst he
  rcases hc : pre.toList with _ | ⟨a, as⟩
  · exact hpre (by cases pre; simp_all)
  · rw [pyStartsWith, hc] at h
    simp [listLeads] at h

/-- The success path of `download_image` on an absolute URL: the returned
path is `folder/` ++ the MD5 hex of the URL string ++ the extension of
the URL's path component (defaulting to `.jpg`). -/
theorem download_image_ok (fetch : Fetch) (u folder : String) (r : Response)
    (hu : pyStartsWith u "http" = true) (h : fetch u = .ok r)
    (hs : ¬(400 ≤ r.status ∧ r.status < 600)) :
    download_image fetch (some u) folder
      = some (pathJoin folder (md5hex u ++
          (if splitextExt (urlparsePath u) = "" then ".jpg"
           else splitextExt (urlparsePath u)))) := by
  have hne : u ≠ "" := pyStartsWith_ne_empty hu (by decide)
  unfold download_image
  simp only [hu, if_true, if_neg hne, h, if_neg hs]

/-- A failed or 4xx/5xx image fetch yields `None`. -/
theorem download_image_err (fetch : Fetch) (u folder : String)
    (h : fetch u = .error () ∨ ∃ r, fetch u = .ok r ∧ 400 ≤ r.status ∧ r.status < 600)
    (hu : pyStartsWith u "http" = true) :
    download_image fetch (some u) folder = none := by
  have hne : u ≠ "" := pyStartsWith_ne_empty hu (by decide)
  unfold download_image
  rcases h with h | ⟨r, h, hr⟩
  · simp only [hu, if_true, if_neg hne, h]
  · simp only [hu, if_true, if_neg hne, h, if_pos hr]

/-! ## Claim C4: content-addressed image paths -/

/-- A fetch oracle that always succeeds with status 200. -/
def okFetch : Fetch := fun _ => .ok ⟨200, "ok-body"⟩

/-- A second fetch oracle with a different status and body. -/
def okFetch2 : Fetch := fun _ => .ok ⟨204, "different-bytes"⟩

/-- C4: for every image URL, the local file path produced by
`download_image` is a deterministic function of the URL string alone: the
filename is the 32-character lowercase-hex MD5 digest of the URL string
(not of the response bytes — two fetches returning different statuses and
bodies yield the same path) concatenated with the derived extension, so
caching the same URL twice in one run yields the same path both times. -/
theorem C4_content_addressed_path (fetch fetch' : Fetch) (u folder : String)
    (r r' : Response) (hu : pyStartsWith u "http" = true)
    (h : fetch u = .ok r) (hs : ¬(400 ≤ r.status ∧ r.status < 600))
    (h' : fetch' u = .ok r') (hs' : ¬(400 ≤ r'.status ∧ r'.status < 600)) :
    download_image fetch (some u) folder
      = some (pathJoin folder (md5hex u ++
          (if splitextExt (urlparsePath u) = "" then ".jpg"
           else splitextExt (urlparsePath u))))
    ∧ download_image fetch (some u) folder = download_image fetch' (some u) folder
    ∧ (md5hex u).length = 32
    ∧ (∀ c ∈ (md5hex u).toList, isLowerHexDigit c = true) := by
  refine ⟨download_image_ok fetch u folder r hu h hs, ?_, md5hex_length u, md5hex_lower u⟩
  rw [download_image_ok fetch u folder r hu h hs,
    download_image_ok fetch' u folder r' hu h' hs']

/-- Witness for C4 at the URL `https://site/a.png`, with the two oracles
returning different statuses and bodies. -/
theorem C4_content_addressed_path_witness :
    download_image okFetch (some "https://site/a.png") "images"
      = some (pathJoin "images" (md5hex "https://site/a.png" ++
          (if splitextExt (urlparsePath "https://site/a.png") = "" then ".jpg"
           else splitextExt (urlparsePath "https://site/a.png"))))
    ∧ download_image okFetch (some "https://site/a.png") "images"
      = download_image okFetch2 (some "https://site/a.png") "images"
    ∧ (md5hex "https://site/a.png").length = 32
    ∧ (∀ c ∈ (md5hex "https://site/a.png").toList, isLowerHexDigit c = true) :=
  C4_content_addressed_path okFetch okFetch2 "https://site/a.png" "images"
    ⟨200, "ok-body"⟩ ⟨204, "different-bytes"⟩ (by decide) rfl (by decide) rfl (by decide)

/-! ## Claim C7: extension derivation -/

/-- C7: the cached filename's extension is the extension of the URL's path
component (the query string is ignored, since `urlparsePath` cuts at `?`),
defaulting to `.jpg` when the path has no extension; concretely, a URL
ending in `.png?v=2` yields a filename ending in `.png` and a URL whose
path ends in `/image` yields a filename ending in `.jpg`. -/
theorem C7_extension_derivation (fetch : Fetch) (u folder : String) (r : Response)
    (hu : pyStartsWith u "http" = true) (h : fetch u = .ok r)
    (hs : ¬(400 ≤ r.status ∧ r.status < 600)) :
    download_image fetch (some u) folder
      = some (pathJoin folder (md5hex u ++
          (if splitextExt (urlparsePath u) = "" then ".jpg"
           else splitextExt (urlparsePath u))))
    ∧ download_image okFetch (some "https://site/a.png?v=2") "images"
      = some ("images/" ++ md5hex "https://site/a.png?v=2" ++ ".png")
    ∧ download_image okFetch (some "https://cdn.example.com/media/image") "images"
      = some ("images/" ++ md5hex "https://cdn.example.com/media/image" ++ ".jpg") := by
  refine ⟨download_image_ok fetch u folder r hu h hs, ?_, ?_⟩
  · rw [download_image_ok okFetch "https://site/a.png?v=2" "images" ⟨200, "ok-body"⟩
      (by decide) rfl (by decide)]
    rfl
  · rw [download_image_ok okFetch "https://cdn.example.com/media/image" "images"
      ⟨200, "ok-body"⟩ (by decide) rfl (by decide)]
    rfl

/-- Witness for C7 at the URL `https://site/a.png?v=2`. -/
theorem C7_extension_derivation_witness :
    download_image okFetch (some "https://site/a.png?v=2") "images"
      = some (pathJoin "images" (md5hex "https://site/a.png?v=2" ++
          (if splitextExt (urlparsePath "https://site/a.png?v=2") = "" then ".jpg"
           else splitextExt (urlparsePath "https://site/a.png?v=2"))))
    ∧ download_image okFetch (some "https://site/a.png?v=2") "images"
      = some ("images/" ++ md5hex "https://site/a.png?v=2" ++ ".png")
    ∧ download_image okFetch (some "https://cdn.example.com/media/image") "images"
      = some ("images/" ++ md5hex "https://cdn.example.com/media/image" ++ ".jpg") :=
  C7_extension_derivation okFetch "https://site/a.png?v=2" "images"
    ⟨200, "ok-body"⟩ (by decide) rfl (by decide)

/-! ## Lemmas about the enumeration loop -/

/-- Crossing one good page: a successful fetch of page `p` whose parsed
cards are nonempty and extract cleanly advances the loop by one page,
appending this page's entries. -/
theorem blogLinksLoop_step (fetch : Fetch) (parse : String → ListingSoup)
    (m p fetches : Nat) (acc es : List LinkEntry) (r : Response)
    (h : fetch (listingUrl p) = .ok r)
    (hne : (parse r.text).cards ≠ [])
    (hes : cardsEntries (parse r.text).cards = .ok es) :
    blogLinksLoop fetch parse (m + 1) p fetches acc
      = blogLinksLoop fetch parse m (p + 1) (fetches + 1) (acc ++ es) := by
  have hem : (parse r.text).cards.isEmpty = false := by
    rcases hc : (parse r.text).cards with _ | _
    · exact absurd hc hne
    · rfl
  simp only [blogLinksLoop, h, hem, Bool.false_eq_true, if_false, hes]

/-- Crossing `n` consecutive good pages accumulates their entries in page
order and performs `n` fetches. -/
theorem blogLinksLoop_good (fetch : Fetch) (parse : String → ListingSoup)
    (soup : Nat → ListingSoup) (es : Nat → List LinkEntry) :
    ∀ (n p fetches m : Nat) (acc : List LinkEntry),
    (∀ i, p ≤ i → i < p + n → ∃ r, fetch (listingUrl i) = .ok r ∧ parse r.text = soup i) →
    (∀ i, p ≤ i → i < p + n →
      (soup i).cards ≠ [] ∧ cardsEntries (soup i).cards = .ok (es i)) →
    blogLinksLoop fetch parse (m + n) p fetches acc
      = blogLinksLoop fetch parse m (p + n) (fetches + n) (acc ++ pagesConcat es p n) := by
  intro n
  induction n with
  | zero => intro p fetches m acc _ _; simp [pagesConcat]
  | succ n ih =>
    intro p fetches m acc hok hcards
    obtain ⟨r, hr, hsoup⟩ := hok p (le_refl p) (by omega)
    obtain ⟨hne, hes⟩ := hcards p (le_refl p) (by omega)
    have hstep := blogLinksLoop_step fetch parse (m + n) p fetches acc (es p) r hr
      (by rw [hsoup]; exact hne) (by rw [hsoup]; exact hes)
    have harith : m + (n + 1) = (m + n) + 1 := by omega
    rw [harith, hstep]
    have := ih (p + 1) (fetches + 1) m (acc ++ es p)
      (fun i h1 h2 => hok i (by omega) (by omega))
      (fun i h1 h2 => hcards i (by omega) (by omega))
    rw [this]
    have h1 : p + 1 + n = p + (n + 1) := by omega
    have h2 : fetches + 1 + n = fetches + (n + 1) := by omega
    rw [h1, h2, pagesConcat, List.append_assoc]

/-- A page with zero cards stops the loop, returning the accumulator. -/
theorem blogLinksLoop_stop_empty (fetch : Fetch) (parse : String → ListingSoup)
    (m p fetches : Nat) (acc : List LinkEntry) (r : Response)
    (h : fetch (listingUrl p) = .ok r) (hempty : (parse r.text).cards = []) :
    blogLinksLoop fetch parse (m + 1) p fetches acc = .returns (acc, fetches + 1) := by
  simp only [blogLinksLoop, h, hempty, List.isEmpty_nil, if_true]

/-- A fetch exception stops the loop, returning the accumulator. -/
theorem blogLinksLoop_stop_err (fetch : Fetch) (parse : String → ListingSoup)
    (m p fetches : Nat) (acc : List LinkEntry)
    (h : fetch (listingUrl p) = .error ()) :
    blogLinksLoop fetch parse (m + 1) p fetches acc = .returns (acc, fetches + 1) := by
  simp only [blogLinksLoop, h]

/-! ## Claim C1: pagination -/

/-- C1 (amended): provided every card's nested image, when present,
carries a `src` attribute (the unguarded `img_tag["src"]` on line 74
otherwise raises), a listing whose pages `1..N` each yield at least one
matching card and whose page `N+1` yields zero cards makes
`get_all_blog_links` return exactly the entries of pages `1..N`, in page
order and card order, with exactly `N+1` listing fetches — for every fuel
bound of at least `N+1`, so the zero-card page is what terminates the
loop. -/
theorem C1_pagination (fetch : Fetch) (parse : String → ListingSoup)
    (N fuel : Nat) (soup : Nat → ListingSoup) (es : Nat → List LinkEntry)
    (hok : ∀ i, 1 ≤ i → i ≤ N + 1 →
      ∃ r, fetch (listingUrl i) = .ok r ∧ parse r.text = soup i)
    (hcards : ∀ i, 1 ≤ i → i ≤ N →
      (soup i).cards ≠ [] ∧ cardsEntries (soup i).cards = .ok (es i))
    (hempty : (soup (N + 1)).cards = [])
    (hfuel : N + 1 ≤ fuel) :
    get_all_blog_links fetch parse fuel = .returns (pagesConcat es 1 N, N + 1) := by
  have hm : fuel = (fuel - (N + 1) + 1) + N := by omega
  rw [get_all_blog_links, hm]
  rw [blogLinksLoop_good fetch parse soup es N 1 0 (fuel - (N + 1) + 1) []
    (fun i h1 h2 => hok i h1 (by omega))
    (fun i h1 h2 => hcards i h1 (by omega))]
  have h1N : 1 + N = N + 1 := by omega
  have h0N : 0 + N = N := by omega
  rw [h1N, h0N, List.nil_append]
  obtain ⟨r, hr, hsoup⟩ := hok (N + 1) (by omega) (le_refl _)
  rw [blogLinksLoop_stop_empty fetch parse (fuel - (N + 1)) (N + 1) N
    (pagesConcat es 1 N) r hr (by rw [hsoup]; exact hempty)]

/-- A listing card whose anchor holds an `<img>` with no `src` attribute. -/
def badCard : CardTag := ⟨some ⟨"/post1", some ⟨[("alt", "thumb")]⟩⟩⟩

/-- A card whose anchor holds no `<img>` at all. -/
def bareCard : CardTag := ⟨some ⟨"/post2", none⟩⟩

/-- A card whose anchor holds an `<img src=...>`. -/
def goodCard : CardTag := ⟨some ⟨"/post3", some ⟨[("src", "/img/t.png")]⟩⟩⟩

/-- Listing oracle for the C1 counterexample: page 1 carries `badCard`
only, every later page is empty. -/
def cexC1Fetch : Fetch := fun url =>
  if url = listingUrl 1 then .ok ⟨200, "c1page1"⟩ else .ok ⟨200, "c1empty"⟩

/-- Parser for the C1 counterexample pages. -/
def cexC1Parse : String → ListingSoup := fun body =>
  if body = "c1page1" then ⟨[badCard]⟩ else ⟨[]⟩

/-- C1 counterexample: page 1 yields one matching card and page 2 yields
zero, so the claim demands that the card's entry be returned after two
fetches — but the card's image has no `src` attribute and the code
raises `KeyError` out of the enumeration instead of returning. -/
theorem C1_pagination_counterexample :
    get_all_blog_links cexC1Fetch cexC1Parse 5 = .raises "KeyError: src" := by decide

/-! ## Claim C6: listing fetch failure ends enumeration -/

/-- C6: a network-level error fetching listing page `k` stops the loop at
page `k` without raising: the entries collected from pages `1..k-1` are
returned, `k` fetches in total are performed (no page after `k` is
attempted), for any fuel bound of at least `k`. -/
theorem C6_listing_error_stops (fetch : Fetch) (parse : String → ListingSoup)
    (k fuel : Nat) (soup : Nat → ListingSoup) (es : Nat → List LinkEntry)
    (hk : 1 ≤ k)
    (hok : ∀ i, 1 ≤ i → i < k →
      ∃ r, fetch (listingUrl i) = .ok r ∧ parse r.text = soup i)
    (hcards : ∀ i, 1 ≤ i → i < k →
      (soup i).cards ≠ [] ∧ cardsEntries (soup i).cards = .ok (es i))
    (herr : fetch (listingUrl k) = .error ())
    (hfuel : k ≤ fuel) :
    get_all_blog_links fetch parse fuel = .returns (pagesConcat es 1 (k - 1), k) := by
  have hm : fuel = (fuel - k + 1) + (k - 1) := by omega
  rw [get_all_blog_links, hm]
  rw [blogLinksLoop_good fetch parse soup es (k - 1) 1 0 (fuel - k + 1) []
    (fun i h1 h2 => hok i h1 (by omega))
    (fun i h1 h2 => hcards i h1 (by omega))]
  have h1k : 1 + (k - 1) = k := by omega
  have h0k : 0 + (k - 1) = k - 1 := by omega
  rw [h1k, h0k, List.nil_append]
  rw [blogLinksLoop_stop_err fetch parse (fuel - k) k (k - 1) (pagesConcat es 1 (k - 1)) herr]
  have hk1 : k - 1 + 1 = k := by omega
  rw [hk1]

/-- Fetch oracle for the C1 witness: every page fetch succeeds and echoes
its URL in the response text. -/
def wFetchC1 : Fetch := fun url => .ok ⟨200, url⟩

/-- Parser for the C1 witness: page 1 shows two cards, all others none. -/
def wParseC1 : String → ListingSoup := fun body =>
  if body = listingUrl 1 then ⟨[goodCard, bareCard]⟩ else ⟨[]⟩

/-- Page contents for the C1 witness. -/
def wSoupC1 : Nat → ListingSoup := fun i =>
  if i = 1 then ⟨[goodCard, bareCard]⟩ else ⟨[]⟩

/-- Per-page entries for the C1 witness. -/
def wEsC1 : Nat → List LinkEntry := fun i =>
  if i = 1 then
    [⟨urljoin BASE_URL "/post3", some "/img/t.png"⟩, ⟨urljoin BASE_URL "/post2", none⟩]
  else []

/-- Witness for C1: one page of two cards followed by an empty page. -/
theorem C1_pagination_witness :
    get_all_blog_links wFetchC1 wParseC1 7 = .returns (pagesConcat wEsC1 1 1, 2) :=
  C1_pagination wFetchC1 wParseC1 1 7 wSoupC1 wEsC1
    (by
      intro i h1 h2
      interval_cases i
      · exact ⟨⟨200, listingUrl 1⟩, rfl, by rfl⟩
      · exact ⟨⟨200, listingUrl 2⟩, rfl, by rfl⟩)
    (by
      intro i h1 h2
      have hi : i = 1 := by omega
      subst hi
      exact ⟨by decide, by rfl⟩)
    (by rfl) (by omega)

/-- Fetch oracle for the C6 witness: page 1 succeeds, page 2 raises a
network error. -/
def wFetchC6 : Fetch := fun url =>
  if url = listingUrl 1 then .ok ⟨200, "c6page1"⟩ else .error ()

/-- Parser for the C6 witness. -/
def wParseC6 : String → ListingSoup := fun body =>
  if body = "c6page1" then ⟨[bareCard]⟩ else ⟨[]⟩

/-- Page contents for the C6 witness. -/
def wSoupC6 : Nat → ListingSoup := fun i =>
  if i = 1 then ⟨[bareCard]⟩ else ⟨[]⟩

/-- Per-page entries for the C6 witness. -/
def wEsC6 : Nat → List LinkEntry := fun i =>
  if i = 1 then [⟨urljoin BASE_URL "/post2", none⟩] else []

/-- Witness for C6: a network error on page 2 returns page 1's entries
after exactly two fetches. -/
theorem C6_listing_error_stops_witness :
    get_all_blog_links wFetchC6 wParseC6 9 = .returns (pagesConcat wEsC6 1 1, 2) :=
  C6_listing_error_stops wFetchC6 wParseC6 2 9 wSoupC6 wEsC6 (by omega)
    (by
      intro i h1 h2
      have hi : i = 1 := by omega
      subst hi
      exact ⟨⟨200, "c6page1"⟩, by rfl, by rfl⟩)
    (by
      intro i h1 h2
      have hi : i = 1 := by omega
      subst hi
      exact ⟨by decide, by rfl⟩)
    (by rfl) (by omega)

/-! ## Claim C8: card thumbnail extraction -/

/-- Listing oracle for C8: page 1 carries a well-formed card followed by a
card whose image has no `src`; later pages are empty. -/
def cexC8Fetch : Fetch := fun url =>
  if url = listingUrl 1 then .ok ⟨200, "c8page1"⟩ else .ok ⟨200, "c8empty"⟩

/-- Parser for the C8 pages. -/
def cexC8Parse : String → ListingSoup := fun body =>
  if body = "c8page1" then ⟨[goodCard, badCard]⟩ else ⟨[]⟩

/-- C8, the code evaluated at the failing input: a card whose nested image
lacks a `src` attribute makes the unguarded `img_tag["src"]` (line 74 of
`blogs.py`) raise `KeyError`, aborting the whole enumeration — even the
preceding well-formed card's entry is lost — where the claim (and the
spec's §7(d): a missing fragment is "never an exception") says the entry
is appended with an absent thumbnail and enumeration never fails.  The
well-formed cases do behave as claimed: a card without a nested image
yields an entry with no thumbnail, and a card with `src` yields it. -/
theorem C8_missing_src_raises :
    extractCard badCard = .error "KeyError: src"
    ∧ get_all_blog_links cexC8Fetch cexC8Parse 5 = .raises "KeyError: src"
    ∧ extractCard bareCard = .ok (some ⟨urljoin BASE_URL "/post2", none⟩)
    ∧ extractCard goodCard = .ok (some ⟨urljoin BASE_URL "/post3", some "/img/t.png"⟩) :=
  ⟨rfl, by rfl, rfl, rfl⟩

/-! ## Claim C10: where the HTTP status is checked -/

/-- C10 (amended): article and listing responses are parsed whatever their
status — `scrape_blog` builds a record from any `.ok` response and the
listing loop scans cards from any `.ok` response; only `download_image`
checks the status, via `raise_for_status`, which raises exactly for 4xx
and 5xx: an image response with status in `[400, 600)` yields `none`, and
any other successfully fetched image yields a path. -/
theorem C10_status_only_checked_for_images (fetch : Fetch)
    (parseA : String → ArticleSoup) (parseL : String → ListingSoup)
    (u : String) (c : Option String) (r : Response)
    (m p fetches : Nat) (acc es : List LinkEntry) (rl : Response)
    (h : fetch u = .ok r)
    (hl : fetch (listingUrl p) = .ok rl)
    (hne : (parseL rl.text).cards ≠ [])
    (hes : cardsEntries (parseL rl.text).cards = .ok es) :
    scrape_blog fetch parseA u c = some (buildRecord fetch (parseA r.text) u c)
    ∧ blogLinksLoop fetch parseL (m + 1) p fetches acc
        = blogLinksLoop fetch parseL m (p + 1) (fetches + 1) (acc ++ es)
    ∧ (∀ (fetch' : Fetch) (u' folder : String) (r' : Response),
        pyStartsWith u' "http" = true → fetch' u' = .ok r' →
        400 ≤ r'.status → r'.status < 600 →
        download_image fetch' (some u') folder = none)
    ∧ (∀ (fetch' : Fetch) (u' folder : String) (r' : Response),
        pyStartsWith u' "http" = true → fetch' u' = .ok r' →
        ¬(400 ≤ r'.status ∧ r'.status < 600) →
        (download_image fetch' (some u') folder).isSome = true) := by
  refine ⟨by simp [scrape_blog, h],
    blogLinksLoop_step fetch parseL m p fetches acc es rl hl hne hes, ?_, ?_⟩
  · intro fetch' u' folder r' hu' h' h4 h6
    exact download_image_err fetch' u' folder (Or.inr ⟨r', h', h4, h6⟩) hu'
  · intro fetch' u' folder r' hu' h' hs'
    rw [download_image_ok fetch' u' folder r' hu' h' hs']
    rfl

/-- A fetch oracle answering HTTP 304 for every URL. -/
def fetch304 : Fetch := fun _ => .ok ⟨304, "not modified"⟩

set_option maxRecDepth 10000 in
/-- C10 counterexample: a 304 response — non-2xx — on an image fetch is
not treated as a failure: `raise_for_status` raises only for 4xx/5xx, so
the image is written and a path is returned, where the claim says a
non-success status yields an absent path. -/
theorem C10_counterexample_304 :
    download_image fetch304 (some "https://site/a.png") "images"
      = some ("images/" ++ md5hex "https://site/a.png" ++ ".png") := by decide

/-- A fetch oracle answering HTTP 500 for every URL. -/
def fetch500 : Fetch := fun _ => .ok ⟨500, "error page"⟩

/-- A parser returning an article page with no recognised fragments. -/
def wParseA0 : String → ArticleSoup := fun _ => ⟨none, none, none, none, none⟩

/-- A parser returning one well-formed card for every listing page. -/
def w10ParseL : String → ListingSoup := fun _ => ⟨[bareCard]⟩

/-- Witness for C10: a 500-status article page still yields a record and a
500-status listing page is still scanned for cards. -/
theorem C10_status_only_checked_for_images_witness :
    scrape_blog fetch500 wParseA0 "https://site/post" none
      = some (buildRecord fetch500 (wParseA0 "error page") "https://site/post" none)
    ∧ blogLinksLoop fetch500 w10ParseL (3 + 1) 1 0 []
        = blogLinksLoop fetch500 w10ParseL 3 (1 + 1) (0 + 1)
            ([] ++ [⟨urljoin BASE_URL "/post2", none⟩])
    ∧ (∀ (fetch' : Fetch) (u' folder : String) (r' : Response),
        pyStartsWith u' "http" = true → fetch' u' = .ok r' →
        400 ≤ r'.status → r'.status < 600 →
        download_image fetch' (some u') folder = none)
    ∧ (∀ (fetch' : Fetch) (u' folder : String) (r' : Response),
        pyStartsWith u' "http" = true → fetch' u' = .ok r' →
        ¬(400 ≤ r'.status ∧ r'.status < 600) →
        (download_image fetch' (some u') folder).isSome = true) :=
  C10_status_only_checked_for_images fetch500 wParseA0 w10ParseL "https://site/post" none
    ⟨500, "error page"⟩ 3 1 0 [] [⟨urljoin BASE_URL "/post2", none⟩] ⟨500, "error page"⟩
    rfl rfl (by decide) (by rfl)

/-! ## Claim C2: per-field fallback sentinels -/

/-- C2 (amended): for every successfully fetched article page a record is
always produced (extraction never raises and never rejects a record);
`title`, `author`, `date` and `content` fall back to their sentinel
strings when their fragment is missing; `views` falls back to
`"No view count"` only when the article-image section is present but its
readcount element is missing — when the section itself is absent,
`views` is null, not the sentinel. -/
theorem C2_field_fallbacks (fetch : Fetch) (parse : String → ArticleSoup)
    (u : String) (c : Option String) (r : Response) (h : fetch u = .ok r) :
    ∃ rec, scrape_blog fetch parse u c = some rec
      ∧ ((parse r.text).h1 = none → rec.title = "No title")
      ∧ ((parse r.text).author = none → rec.author = "No author")
      ∧ ((parse r.text).date = none → rec.date = "No date")
      ∧ ((parse r.text).content = none → rec.content = "No content")
      ∧ (∀ sec, (parse r.text).imageSection = some sec → sec.readcount = none →
          rec.views = some "No view count")
      ∧ ((parse r.text).imageSection = none → rec.views = none) := by
  refine ⟨buildRecord fetch (parse r.text) u c, by simp [scrape_blog, h],
    ?_, ?_, ?_, ?_, ?_, ?_⟩
  · intro h1; simp [buildRecord, h1]
  · intro ha; simp [buildRecord, ha]
  · intro hd; simp [buildRecord, hd]
  · intro hc; simp [buildRecord, hc]
  · intro sec hsec hrc; simp [buildRecord, hsec, hrc]
  · intro hsec; simp [buildRecord, hsec]

/-- Article soup for the C2 counterexample: title, author, date and
content all present; the article-image section (which holds the
readcount element) absent. -/
def cexC2Soup : ArticleSoup :=
  ⟨some ⟨"A Title"⟩, some ⟨"An Author"⟩, some ⟨"1 May 2024"⟩, none,
   some ⟨"Body text", []⟩⟩

/-- Parser for the C2 counterexample. -/
def cexC2Parse : String → ArticleSoup := fun _ => cexC2Soup

/-- C2 counterexample: on a page whose view-count fragment is absent
(because the whole article-image section is absent), the record's
`views` field is null (`None`), not the sentinel `"No view count"` the
claim requires; the other fields are populated normally. -/
theorem C2_counterexample_views_null :
    (scrape_blog okFetch cexC2Parse "https://site/post" none).map BlogRecord.views
      = some none
    ∧ (scrape_blog okFetch cexC2Parse "https://site/post" none).map BlogRecord.title
      = some "A Title" :=
  ⟨rfl, rfl⟩

/-- Witness for C2 on a page with every fragment missing. -/
theorem C2_field_fallbacks_witness :
    ∃ rec, scrape_blog okFetch wParseA0 "https://site/post" none = some rec
      ∧ ((wParseA0 "ok-body").h1 = none → rec.title = "No title")
      ∧ ((wParseA0 "ok-body").author = none → rec.author = "No author")
      ∧ ((wParseA0 "ok-body").date = none → rec.date = "No date")
      ∧ ((wParseA0 "ok-body").content = none → rec.content = "No content")
      ∧ (∀ sec, (wParseA0 "ok-body").imageSection = some sec → sec.readcount = none →
          rec.views = some "No view count")
      ∧ ((wParseA0 "ok-body").imageSection = none → rec.views = none) :=
  C2_field_fallbacks okFetch wParseA0 "https://site/post" none ⟨200, "ok-body"⟩ rfl

/-! ## Claim C3: the featured image -/

/-- C3 (amended): the featured image is the first image element of the
article-image section `div.article_image.left_image` — not of the content
container `div.article.details` — resolved to an absolute URL against the
article URL and passed to the image cache by its own call, independent of
the all-images pass, which ranges over the content container's images;
when the section, its image, or the `src` attribute is absent, the
featured image is null. -/
theorem C3_featured_from_image_section (fetch : Fetch) (parse : String → ArticleSoup)
    (u : String) (c : Option String) (r : Response) (h : fetch u = .ok r) :
    ∃ rec, scrape_blog fetch parse u c = some rec
      ∧ ((parse r.text).imageSection = none → rec.featured_image = none)
      ∧ (∀ sec, (parse r.text).imageSection = some sec →
          (sec.firstImg = none → rec.featured_image = none)
          ∧ (∀ img, sec.firstImg = some img →
              (img.getAttr "src" = none → rec.featured_image = none)
              ∧ (∀ s, img.getAttr "src" = some s →
                  rec.featured_image
                    = download_image fetch (some (urljoin u s)) IMAGE_FOLDER)))
      ∧ rec.all_images
          = ((match (parse r.text).content with
              | some cc => cc.imgs
              | none => []).filterMap
                (fun t : ImgTag => (t.getAttr "src").map (fun s => urljoin u s))).map
              (fun iu => download_image fetch (some iu) IMAGE_FOLDER) := by
  refine ⟨buildRecord fetch (parse r.text) u c, by simp [scrape_blog, h],
    ?_, ?_, by simp [buildRecord]⟩
  · intro hsec; simp [buildRecord, hsec, truthyStr]
  · intro sec hsec
    refine ⟨fun hfi => by simp [buildRecord, hsec, hfi, truthyStr], ?_⟩
    intro img himg
    refine ⟨fun hsrc => by simp [buildRecord, hsec, himg, hsrc, truthyStr], ?_⟩
    intro s hs
    by_cases he : urljoin u s = ""
    · simp [buildRecord, hsec, himg, hs, truthyStr, he, download_image]
    · simp [buildRecord, hsec, himg, hs, truthyStr, he]

/-- Article soup for the C3 counterexample: the content container holds an
image, but the article-image section is absent. -/
def cexC3Soup : ArticleSoup :=
  ⟨some ⟨"T"⟩, none, none, none,
   some ⟨"body", [⟨[("src", "https://cdn.example.com/first.png")]⟩]⟩⟩

/-- Parser for the C3 counterexample. -/
def cexC3Parse : String → ArticleSoup := fun _ => cexC3Soup

set_option maxRecDepth 10000 in
/-- C3 counterexample: the content container's first (and only) image is
cached by the all-images pass, yet the record's featured image is null —
the featured image is not taken from the content container, contradicting
the claim that the content container's first image is cached a second
time as the featured image. -/
theorem C3_counterexample_content_first_image :
    (scrape_blog okFetch cexC3Parse "https://site/post" none).map BlogRecord.featured_image
      = some none
    ∧ (scrape_blog okFetch cexC3Parse "https://site/post" none).map BlogRecord.all_images
      = some [some ("images/" ++ md5hex "https://cdn.example.com/first.png" ++ ".png")] :=
  ⟨rfl, by decide⟩

/-- Article soup for the C3 witness: the article-image section holds an
image with a root-relative `src`; the content container holds another. -/
def wC3Soup : ArticleSoup :=
  ⟨none, none, none,
   some ⟨some ⟨[("src", "/featured.png")]⟩, none, none⟩,
   some ⟨"body", [⟨[("src", "/inline.png")]⟩]⟩⟩

/-- Parser for the C3 witness. -/
def wC3Parse : String → ArticleSoup := fun _ => wC3Soup

/-- Witness for C3 on a page whose image section and content container
hold different images. -/
theorem C3_featured_from_image_section_witness :
    ∃ rec, scrape_blog okFetch wC3Parse "https://site/post" none = some rec
      ∧ ((wC3Parse "ok-body").imageSection = none → rec.featured_image = none)
      ∧ (∀ sec, (wC3Parse "ok-body").imageSection = some sec →
          (sec.firstImg = none → rec.featured_image = none)
          ∧ (∀ img, sec.firstImg = some img →
              (img.getAttr "src" = none → rec.featured_image = none)
              ∧ (∀ s, img.getAttr "src" = some s →
                  rec.featured_image
                    = download_image okFetch (some (urljoin "https://site/post" s))
                        IMAGE_FOLDER)))
      ∧ rec.all_images
          = ((match (wC3Parse "ok-body").content with
              | some cc => cc.imgs
              | none => []).filterMap
                (fun t : ImgTag => (t.getAttr "src").map
                  (fun s => urljoin "https://site/post" s))).map
              (fun iu => download_image okFetch (some iu) IMAGE_FOLDER) :=
  C3_featured_from_image_section okFetch wC3Parse "https://site/post" none
    ⟨200, "ok-body"⟩ rfl

/-! ## Claim C9: the score field -/

/-- C9: every record carries a `score` field: the stripped text of the
rating element when the article-image section and that element both
exist, the sentinel `"No score"` when the section exists but the rating
element does not, and null when the section is absent. -/
theorem C9_score_field (fetch : Fetch) (parse : String → ArticleSoup)
    (u : String) (c : Option String) (r : Response) (h : fetch u = .ok r) :
    ∃ rec, scrape_blog fetch parse u c = some rec
      ∧ ((parse r.text).imageSection = none → rec.score = none)
      ∧ (∀ sec, (parse r.text).imageSection = some sec →
          (sec.rating = none → rec.score = some "No score")
          ∧ (∀ t, sec.rating = some t → rec.score = some (pyStrip t.text))) := by
  refine ⟨buildRecord fetch (parse r.text) u c, by simp [scrape_blog, h], ?_, ?_⟩
  · intro hsec; simp [buildRecord, hsec]
  · intro sec hsec
    exact ⟨fun hr => by simp [buildRecord, hsec, hr],
      fun t ht => by simp [buildRecord, hsec, ht]⟩

/-- Article soup for the C9 witness: the section carries a rating element
with padded text. -/
def wC9Soup : ArticleSoup :=
  ⟨none, none, none, some ⟨none, some ⟨"  4.5 stars  "⟩, none⟩, none⟩

/-- Parser for the C9 witness. -/
def wC9Parse : String → ArticleSoup := fun _ => wC9Soup

/-- Witness for C9 on a page carrying a rating element. -/
theorem C9_score_field_witness :
    ∃ rec, scrape_blog okFetch wC9Parse "https://site/post" none = some rec
      ∧ ((wC9Parse "ok-body").imageSection = none → rec.score = none)
      ∧ (∀ sec, (wC9Parse "ok-body").imageSection = some sec →
          (sec.rating = none → rec.score = some "No score")
          ∧ (∀ t, sec.rating = some t → rec.score = some (pyStrip t.text))) :=
  C9_score_field okFetch wC9Parse "https://site/post" none ⟨200, "ok-body"⟩ rfl

/-! ## Claim C5: partial-failure isolation -/

/-- A fetch exception for the article page is the only way `scrape_blog`
drops a record. -/
theorem scrape_blog_fetch_error (fetch : Fetch) (parse : String → ArticleSoup)
    (u : String) (c : Option String) (h : fetch u = .error ()) :
    scrape_blog fetch parse u c = none := by
  simp [scrape_blog, h]

/-- When every article scrapes successfully, the aggregate maps over the
links in order. -/
theorem mainRecords_all_ok (fetch : Fetch) (parse : String → ArticleSoup)
    (l : List LinkEntry) (f : LinkEntry → BlogRecord)
    (hok : ∀ a ∈ l, scrape_blog fetch parse a.url a.card_image_url = some (f a)) :
    mainRecords fetch parse l = l.map f := by
  induction l with
  | nil => rfl
  | cons a t ih =>
    simp only [mainRecords, hok a (List.mem_cons_self a t), List.map_cons]
    exact congrArg _ (ih fun b hb => hok b (List.mem_cons_of_mem a hb))

/-- C5: a fetch failure for one article omits exactly that article from
the aggregate (its scrape returns `None` and the `main` loop skips it,
with no retry), while all other articles' records are kept in their
relative order. -/
theorem C5_partial_failure_isolation (fetch : Fetch) (parse : String → ArticleSoup)
    (l1 l2 : List LinkEntry) (b : LinkEntry) (f : LinkEntry → BlogRecord)
    (hfail : fetch b.url = .error ())
    (hok : ∀ a ∈ l1 ++ l2, scrape_blog fetch parse a.url a.card_image_url = some (f a)) :
    mainRecords fetch parse (l1 ++ b :: l2) = (l1 ++ l2).map f := by
  induction l1 with
  | nil =>
    simp only [List.nil_append]
    simp only [mainRecords, scrape_blog_fetch_error fetch parse b.url b.card_image_url hfail]
    exact mainRecords_all_ok fetch parse l2 f hok
  | cons a t ih =>
    have ha := hok a (by simp)
    simp only [List.cons_append, mainRecords, ha, List.map_cons]
    exact congrArg _ (ih fun x hx => hok x (by simp at hx ⊢; tauto))

/-- Fetch oracle for the C5 witness: the second article's URL raises, the
others succeed. -/
def wC5Fetch : Fetch := fun url =>
  if url = "https://site/p2" then .error () else .ok ⟨200, url⟩

/-- The three discovered articles for the C5 witness. -/
def wA1 : LinkEntry := ⟨"https://site/p1", none⟩

/-- The failing second article for the C5 witness. -/
def wA2 : LinkEntry := ⟨"https://site/p2", none⟩

/-- The third article for the C5 witness. -/
def wA3 : LinkEntry := ⟨"https://site/p3", none⟩

/-- The record each successful article in the C5 witness produces. -/
def wC5Rec (a : LinkEntry) : BlogRecord :=
  buildRecord wC5Fetch (wParseA0 "") a.url a.card_image_url

/-- Witness for C5: of three articles whose second fails to fetch, the
aggregate holds exactly the first and third records, in order. -/
theorem C5_partial_failure_isolation_witness :
    mainRecords wC5Fetch wParseA0 ([wA1] ++ wA2 :: [wA3]) = ([wA1] ++ [wA3]).map wC5Rec :=
  C5_partial_failure_isolation wC5Fetch wParseA0 [wA1] [wA3] wA2 wC5Rec (by rfl)
    (by
      intro a ha
      simp only [List.cons_append, List.nil_append, List.mem_cons,
        List.not_mem_nil, or_false] at ha
      rcases ha with h | h <;> subst h <;> rfl)
